import Mathlib

/-!
# Cratographer — Symbol Query Layer, shallow embedding

A shallow embedding of the two source files of the repository
(`src/analyzer.rs` and `src/main.rs`).  The external analysis engine
(rust-analyzer: `AnalysisHost`, `Vfs`, `load_workspace_at`, `LineIndex`)
is an external collaborator of the system; it is modelled abstractly as
records of functions, with the contracts the spec assigns to it in §4.1.
The symbol-query layer itself — query construction, result
normalisation, filtering, error mapping, the protocol boundary — is
translated statement by statement from the Rust source.
-/

/-- `SearchMode` from `src/analyzer.rs`: search mode for symbol lookup. -/
inductive SearchMode where
  | Exact
  | Fuzzy
  | Prefix
deriving DecidableEq

/-- `SymbolFilter` from `src/analyzer.rs`: filter for symbol kind. -/
inductive SymbolFilter where
  | Types
  | Implementations
  | Functions
  | All
deriving DecidableEq

/-- `SearchOptions` from `src/analyzer.rs`. -/
structure SearchOptions where
  mode : SearchMode
  include_library : Bool
  filter : SymbolFilter
deriving DecidableEq

/-- `AnalyzerError` from `src/analyzer.rs`.  The payload of `IoError`
is modelled by its message string. -/
inductive AnalyzerError where
  | ProjectLoadError (msg : String)
  | ManifestNotFound (msg : String)
  | IoError (msg : String)
  | Canceled
  | Other (msg : String)
deriving DecidableEq

/-- The `Display` implementation for `AnalyzerError` in `src/analyzer.rs`. -/
def AnalyzerError.display : AnalyzerError → String
  | .ProjectLoadError msg => "Project load error: " ++ msg
  | .ManifestNotFound msg => "Manifest not found: " ++ msg
  | .IoError msg => "IO error: " ++ msg
  | .Canceled => "Operation was canceled"
  | .Other msg => "Error: " ++ msg

/-- The engine-native symbol kind (`ra_ap_ide::SymbolKind`), an
open-ended taxonomy.  The ten constructors the repository maps are
listed first; the remaining constructors stand for the engine-native
kinds that fall into the `_ => None` arm of `convert_symbol_kind`. -/
inductive RaSymbolKind where
  | Const
  | Enum
  | Function
  | Impl
  | Method
  | Module
  | Static
  | Struct
  | Trait
  | TypeAlias
  | Field
  | Local
  | TypeParam
  | LifetimeParam
  | Union
  | TraitAlias
  | BuiltinType
  | SelfParam
  | Label
  | Attribute
deriving DecidableEq

/-- `SymbolKind` from `src/analyzer.rs`: the closed taxonomy —
"only includes symbol kinds we care about". -/
inductive SymbolKind where
  | Const
  | Enum
  | Function
  | Impl
  | Method
  | Module
  | Static
  | Struct
  | Trait
  | TypeAlias
deriving DecidableEq

/-- `convert_symbol_kind` from `src/analyzer.rs`: convert the engine's
symbol kind to the closed taxonomy; returns `none` for symbol kinds the
repository does not care about (the `_ => None` arm). -/
def convert_symbol_kind : RaSymbolKind → Option SymbolKind
  | .Const => some .Const
  | .Enum => some .Enum
  | .Function => some .Function
  | .Impl => some .Impl
  | .Method => some .Method
  | .Module => some .Module
  | .Static => some .Static
  | .Struct => some .Struct
  | .Trait => some .Trait
  | .TypeAlias => some .TypeAlias
  | _ => none

/-- `SymbolInfo` from `src/analyzer.rs`: information about a symbol. -/
structure SymbolInfo where
  name : String
  kind : SymbolKind
  file_path : String
  start_line : Nat
  end_line : Nat
  documentation : Option String
deriving DecidableEq

/-- The engine query (`ra_ap_ide::Query`) as configured by
`find_symbol`: the name, the search mode (`exact`/`fuzzy`/`prefix`),
the `libs` flag and the `only_types` flag. -/
structure Query where
  name : String
  mode : SearchMode
  libs : Bool
  onlyTypes : Bool
deriving DecidableEq

/-- A raw search result (`ra_ap_ide::NavigationTarget`): name, optional
engine-native kind, file identifier, full byte range, optional docs. -/
structure NavItem where
  name : String
  kind : Option RaSymbolKind
  file_id : Nat
  full_range : Nat × Nat
  docs : Option String
deriving DecidableEq

/-- `ra_ap_ide::StructureNodeKind`: a structure node either carries an
engine-native symbol kind or is a region / extern-block marker. -/
inductive StructureNodeKind where
  | SymbolKind (k : RaSymbolKind)
  | Region (label : String)
  | ExternBlock
deriving DecidableEq

/-- A raw file-structure node (`ra_ap_ide::StructureNode`): label,
node kind, node byte range, optional detail string. -/
structure StructureNode where
  label : String
  kind : StructureNodeKind
  node_range : Nat × Nat
  detail : Option String
deriving DecidableEq

/-- The analysis snapshot (`AnalysisHost` / `Analysis`), modelled as the
engine answers the repository consumes: `search` answers a symbol query
(`none` models engine cancellation), `file_text` returns a file's text
(`none` models a failed/cancelled retrieval), `file_structure` returns a
file's structural declarations for a given `exclude_locals` flag
(`none` models cancellation). -/
structure Host where
  search : Query → Option (List NavItem)
  file_text : Nat → Option String
  file_structure : Bool → Nat → Option (List StructureNode)

/-- The virtual file system (`ra_ap_vfs::Vfs`): `file_path` resolves a
file identifier to a path string when possible (`vfs.file_path(id)`
followed by `.as_path()`), `file_id` resolves a path to an indexed file
identifier (`vfs.file_id(&path)`). -/
structure Vfs where
  file_path : Nat → Option String
  file_id : String → Option Nat

/-- `Analyzer` from `src/analyzer.rs`: the analysis host plus the VFS. -/
structure Analyzer where
  host : Host
  vfs : Vfs

/-- Model of `ra_ap_ide::LineIndex` line computation: the 0-based line
of a text offset is the number of newline characters before it. -/
def lineOf (text : String) (offset : Nat) : Nat :=
  ((text.toList.take offset).filter (fun c => c = '\n')).length

/-- Model of `format!("{:?}", file_id)` for `ra_ap_vfs::FileId`
(a derived-Debug tuple struct over the numeric identifier). -/
def debugFormatFileId (id : Nat) : String :=
  "FileId(" ++ toString id ++ ")"

/-- The engine query built by `find_symbol` (analyzer.rs lines 153-171):
`Query::new(name)`, then the search mode, the `libs` flag when
`include_library` holds, and `only_types` exactly when the filter is
`Types`. -/
def mkQuery (name : String) (options : SearchOptions) : Query :=
  { name := name
    mode := options.mode
    libs := options.include_library
    onlyTypes := options.filter = SymbolFilter.Types }

/-- Model of the engine operation `analysis.symbol_search(query, limit)`:
per spec §4.1/§4.3 the engine's search is bounded by the given maximum
result count, modelled as truncation of the engine's match sequence;
`none` models `Cancelled`. -/
def symbol_search (h : Host) (q : Query) (limit : Nat) : Option (List NavItem) :=
  (h.search q).map (fun navs => navs.take limit)

/-- The post-search filter match of `find_symbol` (analyzer.rs lines
186-206): `Types` and `All` keep every kind at this stage (`Types` is
already enforced at the query level), `Implementations` keeps only
`Impl`, `Functions` keeps only `Function` or `Method`. -/
def keepFilter (filter : SymbolFilter) (kind : SymbolKind) : Bool :=
  match filter with
  | .Types => true
  | .Implementations => kind = SymbolKind.Impl
  | .Functions => kind = SymbolKind.Function ∨ kind = SymbolKind.Method
  | .All => true

/-- The per-raw-result closure of `find_symbol` (analyzer.rs lines
181-238): map the engine-native kind (defaulting an absent kind to
`Module`) through `convert_symbol_kind`, apply the post-search filter,
resolve the file path with a debug-formatted fallback, compute line
numbers with a `(0, 0)` fallback, and attach the documentation. -/
def processNav (a : Analyzer) (options : SearchOptions) (nav : NavItem) : Option SymbolInfo :=
  match convert_symbol_kind (nav.kind.getD RaSymbolKind.Module) with
  | none => none
  | some kind =>
    if keepFilter options.filter kind then
      let path_str : String :=
        match a.vfs.file_path nav.file_id with
        | some p => p
        | none => debugFormatFileId nav.file_id
      let lines : Nat × Nat :=
        match a.host.file_text nav.file_id with
        | some text => (lineOf text nav.full_range.1, lineOf text nav.full_range.2)
        | none => (0, 0)
      some { name := nav.name
             kind := kind
             file_path := path_str
             start_line := lines.1
             end_line := lines.2
             documentation := nav.docs }
    else none

/-- `Analyzer::find_symbol` from `src/analyzer.rs` (lines 150-242):
build the query, run the engine search limited to 32 results (mapping
cancellation to `Canceled`), and normalise each raw result. -/
def find_symbol (a : Analyzer) (name : String) (options : SearchOptions) :
    Except AnalyzerError (List SymbolInfo) :=
  match symbol_search a.host (mkQuery name options) 32 with
  | none => .error AnalyzerError.Canceled
  | some symbols => .ok (symbols.filterMap (processNav a options))

/-- The per-node closure of `enumerate_file` (analyzer.rs lines
270-291): only nodes carrying a symbol kind are processed; the kind is
mapped through `convert_symbol_kind` and `none` skips the node. -/
def processNode (file_path : String) (text : String) (node : StructureNode) :
    Option SymbolInfo :=
  match node.kind with
  | .SymbolKind ra_kind =>
    (convert_symbol_kind ra_kind).map (fun kind =>
      { name := node.label
        kind := kind
        file_path := file_path
        start_line := lineOf text node.node_range.1
        end_line := lineOf text node.node_range.2
        documentation := node.detail })
  | _ => none

/-- The outcome of running a function that may abort the process: either
a normal return or an abort with the abort message.  Needed because
`enumerate_file` calls `AbsPathBuf::assert`, which aborts on a
non-absolute path instead of returning. -/
inductive RunResult (α : Type) where
  | panicked (msg : String)
  | ret (v : α)
deriving DecidableEq

/-- Model of `Utf8Path::is_absolute`, the precondition checked by
`AbsPathBuf::assert` (analyzer.rs line 249): on Unix a UTF-8 path is
absolute exactly when its first character is the path separator. -/
def isAbsolutePath (p : String) : Bool :=
  match p.toList with
  | [] => false
  | c :: _ => c = '/'

/-- `Analyzer::enumerate_file` from `src/analyzer.rs` (lines 247-295):
convert the path with `AbsPathBuf::assert` — which aborts (panics)
with "expected absolute path" when the path is not absolute — then
resolve it to a file identifier (absence is an `Other` error), request
the file structure with locals excluded, read the file text
(cancellation of either is `Canceled`), and normalise each node. -/
def enumerate_file (a : Analyzer) (file_path : String) :
    RunResult (Except AnalyzerError (List SymbolInfo)) :=
  if isAbsolutePath file_path then
    .ret (match a.vfs.file_id file_path with
    | none => .error (AnalyzerError.Other ("File not found in VFS: " ++ file_path))
    | some file_id =>
      match a.host.file_structure true file_id with
      | none => .error AnalyzerError.Canceled
      | some nodes =>
        match a.host.file_text file_id with
        | none => .error AnalyzerError.Canceled
        | some text => .ok (nodes.filterMap (processNode file_path text)))
  else
    .panicked ("expected absolute path, got " ++ file_path)

/-- An OS path as returned by `canonicalize`: its textual form plus
whether it is valid UTF-8 (`Utf8PathBuf::from_path_buf` fails on the
latter; a Lean `String` alone cannot represent a non-UTF-8 path). -/
structure OsPath where
  repr : String
  utf8 : Bool
deriving DecidableEq

/-- The external world `load_project` interacts with, per spec §4.1:
`canonicalize` is the filesystem canonicalisation (error message on
failure), `manifest_discoverable` says whether a project descriptor is
discoverable at a canonical path, and `workspace_result` is the
workspace loader's outcome once a descriptor was discovered. -/
structure World where
  canonicalize : String → Except String OsPath
  manifest_discoverable : String → Bool
  workspace_result : String → Except String (Host × Vfs)

/-- Model of the external `load_workspace_at` helper, per spec §4.1
(`discover_project_descriptor` then `load_workspace`): discovery runs
inside the loader, so a path with no discoverable manifest makes the
loader itself return an error. -/
def load_workspace_at (w : World) (path : String) : Except String (Host × Vfs) :=
  if w.manifest_discoverable path then
    w.workspace_result path
  else
    .error ("Failed to discover workspace at " ++ path)

/-- `Analyzer::load_project` from `src/analyzer.rs` (lines 109-145),
in explicit state-passing form (`&mut self` becomes: return the result
together with the analyzer state after the call).  Canonicalisation
failure and a non-UTF-8 path map to `ManifestNotFound`; a loader
failure maps to `ProjectLoadError`; only on success are `host` and
`vfs` replaced. -/
def load_project (a : Analyzer) (w : World) (project_path : String) :
    Except AnalyzerError Unit × Analyzer :=
  match w.canonicalize project_path with
  | .error e =>
    (.error (AnalyzerError.ManifestNotFound (project_path ++ ": " ++ e)), a)
  | .ok canonical_path =>
    if canonical_path.utf8 then
      match load_workspace_at w canonical_path.repr with
      | .error e => (.error (AnalyzerError.ProjectLoadError e), a)
      | .ok (db, vfs) => (.ok (), { host := db, vfs := vfs })
    else
      (.error (AnalyzerError.ManifestNotFound
        ("Path is not valid UTF-8: " ++ canonical_path.repr)), a)

/-- `FindSymbolParams` from `src/main.rs`. -/
structure FindSymbolParams where
  name : String
  mode : Option String
  include_library : Option Bool
  filter : Option String
deriving DecidableEq

/-- `McpError` (`rmcp::model::ErrorData`) as the repository constructs
it: a numeric code and a message. -/
structure McpError where
  code : Int
  message : String
deriving DecidableEq

/-- The search-mode parse in `CratographerServer::find_symbol`
(main.rs lines 83-94): `"exact"`, `"prefix"`, `"fuzzy"` or absent are
accepted; any other string is a code `-1` error. -/
def parse_mode : Option String → Except McpError SearchMode
  | none => .ok SearchMode.Fuzzy
  | some s =>
    if s = "exact" then .ok SearchMode.Exact
    else if s = "prefix" then .ok SearchMode.Prefix
    else if s = "fuzzy" then .ok SearchMode.Fuzzy
    else .error { code := -1
                  message := "Invalid search mode: '" ++ s ++
                    "'. Valid values: 'exact', 'fuzzy', 'prefix'" }

/-- The symbol-filter parse in `CratographerServer::find_symbol`
(main.rs lines 97-109): `"types"`, `"implementations"`, `"functions"`,
`"all"` or absent are accepted; any other string is a code `-1` error. -/
def parse_filter : Option String → Except McpError SymbolFilter
  | none => .ok SymbolFilter.All
  | some s =>
    if s = "types" then .ok SymbolFilter.Types
    else if s = "implementations" then .ok SymbolFilter.Implementations
    else if s = "functions" then .ok SymbolFilter.Functions
    else if s = "all" then .ok SymbolFilter.All
    else .error { code := -1
                  message := "Invalid filter: '" ++ s ++
                    "'. Valid values: 'types', 'implementations', 'functions', 'all'" }

/-- `CratographerServer::find_symbol` from `src/main.rs` (lines
79-152), up to the analyzer result (the JSON rendering of a successful
result is transport formatting outside the query layer): parse the mode,
then the filter — returning the client error before any session access —
then lock the analyzer and run the search, mapping an analyzer error to
a code `-1` error built from its display form. -/
def server_find_symbol (a : Analyzer) (p : FindSymbolParams) :
    Except McpError (List SymbolInfo) :=
  match parse_mode p.mode with
  | .error e => .error e
  | .ok mode =>
    match parse_filter p.filter with
    | .error e => .error e
    | .ok filter =>
      let options : SearchOptions :=
        { mode := mode
          include_library := p.include_library.getD false
          filter := filter }
      match find_symbol a p.name options with
      | .error e =>
        .error { code := -1, message := "Search failed: " ++ e.display }
      | .ok results => .ok results

/-! ## Concrete fixtures used by witnesses and counterexamples -/

/-- A VFS that resolves no identifier and indexes no path. -/
def vfs0 : Vfs :=
  { file_path := fun _ => none
    file_id := fun _ => none }

/-- A host whose search always succeeds with no matches. -/
def host0 : Host :=
  { search := fun _ => some []
    file_text := fun _ => none
    file_structure := fun _ _ => none }

/-- An analyzer over `host0` and `vfs0`. -/
def analyzer0 : Analyzer := { host := host0, vfs := vfs0 }

/-- A raw engine result of kind `Struct`. -/
def navStruct : NavItem :=
  { name := "S", kind := some RaSymbolKind.Struct, file_id := 0
    full_range := (0, 0), docs := none }

/-- A raw engine result of kind `Function`. -/
def navFun : NavItem :=
  { name := "f", kind := some RaSymbolKind.Function, file_id := 0
    full_range := (0, 0), docs := none }

/-- A raw engine result of kind `Impl`. -/
def navImpl : NavItem :=
  { name := "impl S", kind := some RaSymbolKind.Impl, file_id := 0
    full_range := (0, 0), docs := none }

/-- A raw engine result whose kind is outside the closed taxonomy. -/
def navField : NavItem :=
  { name := "fld", kind := some RaSymbolKind.Field, file_id := 0
    full_range := (0, 0), docs := none }

/-- A raw engine result with no engine-native kind at all. -/
def navNone : NavItem :=
  { name := "m", kind := none, file_id := 0
    full_range := (0, 0), docs := none }

/-- The normalised form of `navStruct` under an empty VFS and
unavailable file text. -/
def infoS : SymbolInfo :=
  { name := "S", kind := SymbolKind.Struct, file_path := "FileId(0)"
    start_line := 0, end_line := 0, documentation := none }

/-- The normalised form of `navFun` under an empty VFS and unavailable
file text. -/
def infoF : SymbolInfo :=
  { name := "f", kind := SymbolKind.Function, file_path := "FileId(0)"
    start_line := 0, end_line := 0, documentation := none }

/-- The normalised form of `navImpl` under an empty VFS and unavailable
file text. -/
def infoI : SymbolInfo :=
  { name := "impl S", kind := SymbolKind.Impl, file_path := "FileId(0)"
    start_line := 0, end_line := 0, documentation := none }

/-- A host whose type-restricted search answers `[navStruct]` and whose
unrestricted search answers `[navStruct, navFun, navImpl]`. -/
def hostTypes : Host :=
  { search := fun q =>
      if q.onlyTypes then some [navStruct] else some [navStruct, navFun, navImpl]
    file_text := fun _ => none
    file_structure := fun _ _ => none }

/-- An analyzer over `hostTypes` and `vfs0`. -/
def analyzerTypes : Analyzer := { host := hostTypes, vfs := vfs0 }

/-- A structure node whose engine-native kind is outside the closed
taxonomy. -/
def nodeField : StructureNode :=
  { label := "fld", kind := StructureNodeKind.SymbolKind RaSymbolKind.Field
    node_range := (0, 0), detail := none }

/-- A structure node of kind `Struct`. -/
def nodeStruct : StructureNode :=
  { label := "S", kind := StructureNodeKind.SymbolKind RaSymbolKind.Struct
    node_range := (0, 0), detail := none }

/-- A host that indexes one file with a single `Struct` declaration. -/
def hostEnum : Host :=
  { search := fun _ => some []
    file_text := fun _ => some ""
    file_structure := fun _ _ => some [nodeStruct] }

/-- A VFS mapping every path to file identifier `0`. -/
def vfsEnum : Vfs :=
  { file_path := fun _ => none
    file_id := fun _ => some 0 }

/-- An analyzer over `hostEnum` and `vfsEnum`. -/
def analyzerEnum : Analyzer := { host := hostEnum, vfs := vfsEnum }

/-- A world where every path canonicalizes to itself (valid UTF-8) but
no project descriptor is discoverable anywhere. -/
def worldNoManifest : World :=
  { canonicalize := fun p => .ok { repr := p, utf8 := true }
    manifest_discoverable := fun _ => false
    workspace_result := fun _ => .error "unreached" }

/-- A world where canonicalization fails on every path. -/
def worldBadPath : World :=
  { canonicalize := fun _ => .error "No such file or directory (os error 2)"
    manifest_discoverable := fun _ => false
    workspace_result := fun _ => .error "unreached" }

/-- Discriminator: did `load_project` fail with `ManifestNotFound`? -/
def resultIsManifestNotFound : Except AnalyzerError Unit → Bool
  | .error (.ManifestNotFound _) => true
  | _ => false

/-- Discriminator: did `enumerate_file` return (rather than abort with)
the `Other` file-not-found error? -/
def enumResultIsOtherError :
    RunResult (Except AnalyzerError (List SymbolInfo)) → Bool
  | .ret (.error (.Other _)) => true
  | _ => false

/-- A host realising truncation loss: the unrestricted match sequence
holds 32 functions ranked ahead of the one struct, the type-restricted
match sequence (its subsequence of type symbols) holds just the struct. -/
def hostTrunc : Host :=
  { search := fun q =>
      if q.onlyTypes then some [navStruct]
      else some (List.replicate 32 navFun ++ [navStruct])
    file_text := fun _ => none
    file_structure := fun _ _ => none }

/-- An analyzer over `hostTrunc` and `vfs0`. -/
def analyzerTrunc : Analyzer := { host := hostTrunc, vfs := vfs0 }

/-- Fuzzy, project-only search options with the `All` filter. -/
def optsAll : SearchOptions :=
  { mode := SearchMode.Fuzzy, include_library := false, filter := SymbolFilter.All }

/-- Fuzzy, project-only search options with the `Types` filter. -/
def optsTypes : SearchOptions :=
  { mode := SearchMode.Fuzzy, include_library := false, filter := SymbolFilter.Types }

/-- Fuzzy, project-only search options with the `Functions` filter. -/
def optsFuns : SearchOptions :=
  { mode := SearchMode.Fuzzy, include_library := false, filter := SymbolFilter.Functions }

/-- Fuzzy, project-only search options with the `Implementations` filter. -/
def optsImpls : SearchOptions :=
  { mode := SearchMode.Fuzzy, include_library := false, filter := SymbolFilter.Implementations }

/-- Protocol parameters carrying a mode string outside the enum. -/
def paramsBadMode : FindSymbolParams :=
  { name := "x", mode := some "EXACT", include_library := none, filter := none }

/-! ## Helper lemmas -/

/-- The closed symbol-kind taxonomy of spec §3, as the code's
`SymbolKind` members. -/
def closedTaxonomy : List SymbolKind :=
  [.Const, .Enum, .Function, .Impl, .Method, .Module, .Static, .Struct,
   .Trait, .TypeAlias]

/-- The structural type kinds of spec §4.2 (struct / enum / trait /
type alias). -/
def structuralTypeKinds : List SymbolKind :=
  [.Struct, .Enum, .Trait, .TypeAlias]

/-- The engine-native counterparts of the structural type kinds. -/
def rawStructuralTypeKinds : List RaSymbolKind :=
  [.Struct, .Enum, .Trait, .TypeAlias]

/-- Modelled from the spec: §4.2 "Types restricts to structural type
symbols (struct/enum/trait/type-alias) — enforced at the engine-query
level".  The contract the external engine is assumed to meet: every
raw result of an `only_types` query carries a structural type kind. -/
def HonorsOnlyTypes (h : Host) : Prop :=
  ∀ q navs, q.onlyTypes = true → h.search q = some navs →
    ∀ nav ∈ navs, ∃ k, nav.kind = some k ∧ k ∈ rawStructuralTypeKinds

lemma mem_closedTaxonomy (k : SymbolKind) : k ∈ closedTaxonomy := by
  cases k <;> simp [closedTaxonomy]

lemma find_symbol_ok_elim (a : Analyzer) (name : String) (options : SearchOptions)
    (res : List SymbolInfo) (h : find_symbol a name options = .ok res) :
    ∃ navs, a.host.search (mkQuery name options) = some navs ∧
      res = (navs.take 32).filterMap (processNav a options) := by
  unfold find_symbol symbol_search at h
  cases hs : a.host.search (mkQuery name options) with
  | none => rw [hs] at h; simp at h
  | some navs =>
    rw [hs] at h
    simp only [Option.map_some'] at h
    exact ⟨navs, rfl, by cases h; rfl⟩

lemma processNav_some_spec (a : Analyzer) (options : SearchOptions) (nav : NavItem)
    (s : SymbolInfo) (h : processNav a options nav = some s) :
    convert_symbol_kind (nav.kind.getD RaSymbolKind.Module) = some s.kind ∧
    keepFilter options.filter s.kind = true ∧
    (a.vfs.file_path nav.file_id = none →
      s.file_path = debugFormatFileId nav.file_id) ∧
    (a.host.file_text nav.file_id = none →
      s.start_line = 0 ∧ s.end_line = 0) := by
  unfold processNav at h
  split at h
  · simp at h
  · rename_i kind hc
    split at h
    · rename_i hk
      injection h with h'
      subst h'
      refine ⟨hc, hk, fun hp => ?_, fun ht => ⟨?_, ?_⟩⟩
      · rw [hp]
      · rw [ht]
      · rw [ht]
    · simp at h

lemma processNav_isSome_congr (a a2 : Analyzer) (options : SearchOptions)
    (nav : NavItem) :
    (processNav a options nav).isSome = (processNav a2 options nav).isSome := by
  rcases hc : convert_symbol_kind (nav.kind.getD RaSymbolKind.Module) with _ | kind
  · simp [processNav, hc]
  · by_cases hk : keepFilter options.filter kind = true
    · simp [processNav, hc, hk]
    · simp [processNav, hc, hk]

lemma processNav_all_of_filter (a : Analyzer) (mode : SearchMode) (lib : Bool)
    (fil : SymbolFilter) (nav : NavItem) (s : SymbolInfo)
    (h : processNav a ⟨mode, lib, fil⟩ nav = some s) :
    processNav a ⟨mode, lib, SymbolFilter.All⟩ nav = some s := by
  unfold processNav at h ⊢
  split at h
  · simp at h
  · rename_i kind hc
    split at h
    · exact h
    · simp at h

lemma parse_mode_error_code (m : Option String) (e : McpError)
    (h : parse_mode m = .error e) : e.code = -1 := by
  cases m with
  | none => simp [parse_mode] at h
  | some s =>
    simp only [parse_mode] at h
    split_ifs at h
    injection h with h'
    rw [← h']

lemma parse_filter_error_code (f : Option String) (e : McpError)
    (h : parse_filter f = .error e) : e.code = -1 := by
  cases f with
  | none => simp [parse_filter] at h
  | some s =>
    simp only [parse_filter] at h
    split_ifs at h
    injection h with h'
    rw [← h']

/-- The normalised form of `navNone` under the `All` filter: defaulted
to kind `Module`. -/
def infoM : SymbolInfo :=
  { name := "m", kind := SymbolKind.Module, file_path := "FileId(0)"
    start_line := 0, end_line := 0, documentation := none }

/-- The normalised form of `nodeStruct` as enumerated from `/f.rs`. -/
def infoNodeS : SymbolInfo :=
  { name := "S", kind := SymbolKind.Struct, file_path := "/f.rs"
    start_line := 0, end_line := 0, documentation := none }

/-! ## Claim theorems -/

/-- C1: for every name and every `SearchOptions`, a successful
`find_symbol` returns at most 32 entries — the fixed maximum result
count the code passes to the engine's bounded `symbol_search`. -/
theorem find_symbol_result_bounded (a : Analyzer) (name : String)
    (options : SearchOptions) (res : List SymbolInfo)
    (h : find_symbol a name options = .ok res) : res.length ≤ 32 := by
  obtain ⟨navs, _, hres⟩ := find_symbol_ok_elim a name options res h
  subst hres
  exact le_trans (List.length_filterMap_le _ _) (List.length_take_le _ _)

/-- Witness for C1 at a concrete analyzer answering three raw results. -/
theorem find_symbol_result_bounded_witness :
    find_symbol analyzerTypes "a" optsAll = .ok [infoS, infoF, infoI] ∧
    [infoS, infoF, infoI].length ≤ 32 :=
  ⟨rfl, find_symbol_result_bounded analyzerTypes "a" optsAll [infoS, infoF, infoI] rfl⟩

/-- C4: `load_project` is atomic with respect to the session: whenever
it returns an error, the analyzer state after the call (host and path
table) is exactly the state before the call. -/
theorem load_project_error_keeps_session (a : Analyzer) (w : World)
    (project_path : String) (e : AnalyzerError)
    (h : (load_project a w project_path).1 = .error e) :
    (load_project a w project_path).2 = a := by
  rcases hc : w.canonicalize project_path with e' | cp
  · simp [load_project, hc]
  · cases hu : cp.utf8 with
    | false => simp [load_project, hc, hu]
    | true =>
      rcases hl : load_workspace_at w cp.repr with e2 | ⟨db, vfs⟩
      · simp [load_project, hc, hu, hl]
      · simp [load_project, hc, hu, hl] at h

/-- Witness for C4: a failing load on a manifest-free world leaves the
session untouched. -/
theorem load_project_error_keeps_session_witness :
    (load_project analyzer0 worldNoManifest "/proj").2 = analyzer0 :=
  load_project_error_keeps_session analyzer0 worldNoManifest "/proj"
    (AnalyzerError.ProjectLoadError ("Failed to discover workspace at " ++ "/proj"))
    rfl

/-- C9 counterexample: a relative path does not resolve to an indexed
file identifier, yet `enumerate_file` aborts inside `AbsPathBuf::assert`
(analyzer.rs line 249) instead of returning the `Other` file-not-found
error. -/
theorem enumerate_file_relative_path_counterexample :
    analyzer0.vfs.file_id "rel.rs" = none ∧
    enumerate_file analyzer0 "rel.rs" =
      .panicked ("expected absolute path, got " ++ "rel.rs") ∧
    enumResultIsOtherError (enumerate_file analyzer0 "rel.rs") = false :=
  ⟨rfl, rfl, rfl⟩

/-- C9 amended: for every absolute file path the session cannot resolve
to an indexed file identifier, `enumerate_file` returns the `Other`
(file-not-found) error — never an empty success; a non-absolute path
instead aborts in `AbsPathBuf::assert` (see the counterexample). -/
theorem enumerate_file_unindexed_other_error (a : Analyzer) (fp : String)
    (habs : isAbsolutePath fp = true) (h : a.vfs.file_id fp = none) :
    enumerate_file a fp =
      .ret (.error (AnalyzerError.Other ("File not found in VFS: " ++ fp))) := by
  simp [enumerate_file, habs, h]

/-- Witness for C9's amended claim at a VFS that indexes nothing. -/
theorem enumerate_file_unindexed_other_error_witness :
    enumerate_file analyzer0 "/nope.rs" =
      .ret (.error (AnalyzerError.Other ("File not found in VFS: " ++ "/nope.rs"))) :=
  enumerate_file_unindexed_other_error analyzer0 "/nope.rs" rfl rfl

/-- C10: a raw search result with no engine-native kind is defaulted to
`Module` rather than dropped: it survives the `All` and `Types`
post-search paths (as a `Module` entry) and is removed only by the
`Implementations` and `Functions` post-hoc filters. -/
theorem find_symbol_missing_kind_module_default (a : Analyzer)
    (options : SearchOptions) (nav : NavItem) (h : nav.kind = none) :
    ((options.filter = SymbolFilter.All ∨ options.filter = SymbolFilter.Types) →
      (processNav a options nav).isSome = true ∧
      ∀ s, processNav a options nav = some s → s.kind = SymbolKind.Module) ∧
    ((options.filter = SymbolFilter.Implementations ∨
        options.filter = SymbolFilter.Functions) →
      processNav a options nav = none) := by
  have hknd : convert_symbol_kind (nav.kind.getD RaSymbolKind.Module) =
      some SymbolKind.Module := by rw [h]; rfl
  constructor
  · intro hfil
    have hk : keepFilter options.filter SymbolKind.Module = true := by
      rcases hfil with h' | h' <;> rw [h'] <;> rfl
    constructor
    · simp [processNav, hknd, hk]
    · intro s hs
      have hc := (processNav_some_spec a options nav s hs).1
      rw [hknd] at hc
      injection hc with hc
      exact hc.symm
  · intro hfil
    have hk : ¬ keepFilter options.filter SymbolKind.Module = true := by
      rcases hfil with h' | h' <;> rw [h'] <;> decide
    simp [processNav, hknd, hk]

/-- Witness for C10: a kindless raw result becomes a `Module` entry
under `All` and is dropped under `Functions`. -/
theorem find_symbol_missing_kind_module_default_witness :
    (processNav analyzer0 optsAll navNone).isSome = true ∧
    infoM.kind = SymbolKind.Module ∧
    processNav analyzer0 optsFuns navNone = none :=
  ⟨((find_symbol_missing_kind_module_default analyzer0 optsAll navNone rfl).1
      (Or.inl rfl)).1,
   ((find_symbol_missing_kind_module_default analyzer0 optsAll navNone rfl).1
      (Or.inl rfl)).2 infoM rfl,
   (find_symbol_missing_kind_module_default analyzer0 optsFuns navNone rfl).2
      (Or.inr rfl)⟩

/-- C2: every kind returned by `find_symbol` or `enumerate_file` lies in
the closed taxonomy, and a raw entry whose engine-native kind is
outside the taxonomy is handled by one single policy — dropped — applied
identically by the search path (`processNav`) and the file-structure
path (`processNode`). -/
theorem kind_taxonomy_single_drop_policy :
    (∀ (a : Analyzer) (options : SearchOptions) (nav : NavItem) (k : RaSymbolKind),
      nav.kind = some k → convert_symbol_kind k = none →
      processNav a options nav = none) ∧
    (∀ (fp text : String) (node : StructureNode) (k : RaSymbolKind),
      node.kind = StructureNodeKind.SymbolKind k → convert_symbol_kind k = none →
      processNode fp text node = none) ∧
    (∀ (a : Analyzer) (name : String) (options : SearchOptions)
      (res : List SymbolInfo), find_symbol a name options = .ok res →
      ∀ s ∈ res, s.kind ∈ closedTaxonomy) ∧
    (∀ (a : Analyzer) (fp : String) (res : List SymbolInfo),
      enumerate_file a fp = .ret (.ok res) →
      ∀ s ∈ res, s.kind ∈ closedTaxonomy) := by
  refine ⟨?_, ?_, ?_, ?_⟩
  · intro a options nav k hk hc
    simp [processNav, hk, hc]
  · intro fp text node k hk hc
    simp [processNode, hk, hc]
  · intro a name options res _ s _
    exact mem_closedTaxonomy s.kind
  · intro a fp res _ s _
    exact mem_closedTaxonomy s.kind

/-- Witness for C2: a `Field`-kinded raw entry is dropped by both paths,
and concrete results of both operations carry taxonomy kinds. -/
theorem kind_taxonomy_single_drop_policy_witness :
    processNav analyzer0 optsAll navField = none ∧
    processNode "/x.rs" "" nodeField = none ∧
    infoS.kind ∈ closedTaxonomy ∧
    infoNodeS.kind ∈ closedTaxonomy :=
  ⟨kind_taxonomy_single_drop_policy.1 analyzer0 optsAll navField
      RaSymbolKind.Field rfl rfl,
   kind_taxonomy_single_drop_policy.2.1 "/x.rs" "" nodeField
      RaSymbolKind.Field rfl rfl,
   kind_taxonomy_single_drop_policy.2.2.1 analyzerTypes "a" optsAll
      [infoS, infoF, infoI] rfl infoS (by decide),
   kind_taxonomy_single_drop_policy.2.2.2 analyzerEnum "/f.rs"
      [infoNodeS] rfl infoNodeS (by decide)⟩

/-- C3 counterexample: a path that canonicalizes fine but at which no
project descriptor is discoverable makes `load_project` return
`ProjectLoadError` (the loader's failure), not `ManifestNotFound`. -/
theorem load_project_no_manifest_counterexample :
    worldNoManifest.manifest_discoverable "/proj" = false ∧
    (load_project analyzer0 worldNoManifest "/proj").1 =
      .error (AnalyzerError.ProjectLoadError
        ("Failed to discover workspace at " ++ "/proj")) ∧
    resultIsManifestNotFound (load_project analyzer0 worldNoManifest "/proj").1 =
      false :=
  ⟨rfl, rfl, rfl⟩

/-- C3 amended: `load_project` returns `ManifestNotFound` exactly for
the canonicalization failures (nonexistent path, non-UTF-8 path); a
canonicalizable UTF-8 path with no discoverable manifest fails inside
the workspace loader and returns `ProjectLoadError` instead. -/
theorem load_project_manifest_error_classification (a : Analyzer) (w : World)
    (p : String) :
    (∀ e, w.canonicalize p = .error e →
      (load_project a w p).1 =
        .error (AnalyzerError.ManifestNotFound (p ++ ": " ++ e))) ∧
    (∀ cp, w.canonicalize p = .ok cp → cp.utf8 = false →
      (load_project a w p).1 =
        .error (AnalyzerError.ManifestNotFound
          ("Path is not valid UTF-8: " ++ cp.repr))) ∧
    (∀ cp, w.canonicalize p = .ok cp → cp.utf8 = true →
      w.manifest_discoverable cp.repr = false →
      (load_project a w p).1 =
        .error (AnalyzerError.ProjectLoadError
          ("Failed to discover workspace at " ++ cp.repr))) := by
  refine ⟨?_, ?_, ?_⟩
  · intro e hc
    simp [load_project, hc]
  · intro cp hc hu
    simp [load_project, hc, hu]
  · intro cp hc hu hm
    simp [load_project, load_workspace_at, hc, hu, hm]

/-- Witness for C3's amended claim: a canonicalization failure yields
`ManifestNotFound`, a loader-level discovery failure yields
`ProjectLoadError`. -/
theorem load_project_manifest_error_classification_witness :
    (load_project analyzer0 worldBadPath "/gone").1 =
      .error (AnalyzerError.ManifestNotFound
        ("/gone" ++ ": " ++ "No such file or directory (os error 2)")) ∧
    (load_project analyzer0 worldNoManifest "/proj2").1 =
      .error (AnalyzerError.ProjectLoadError
        ("Failed to discover workspace at " ++ "/proj2")) :=
  ⟨(load_project_manifest_error_classification analyzer0 worldBadPath "/gone").1
      "No such file or directory (os error 2)" rfl,
   (load_project_manifest_error_classification analyzer0 worldNoManifest
      "/proj2").2.2 { repr := "/proj2", utf8 := true } rfl rfl rfl⟩

/-- C5: `find_symbol` with `filter=Functions` returns only `Function`
or `Method` kinds; with `filter=Implementations` only `Impl`; and with
`filter=Types` — whose restriction is enforced at the engine-query
level, assumed via `HonorsOnlyTypes` — only structural type kinds. -/
theorem find_symbol_filter_soundness (a : Analyzer) (name : String)
    (options : SearchOptions) (res : List SymbolInfo)
    (h : find_symbol a name options = .ok res) :
    (options.filter = SymbolFilter.Functions →
      ∀ s ∈ res, s.kind = SymbolKind.Function ∨ s.kind = SymbolKind.Method) ∧
    (options.filter = SymbolFilter.Implementations →
      ∀ s ∈ res, s.kind = SymbolKind.Impl) ∧
    (HonorsOnlyTypes a.host → options.filter = SymbolFilter.Types →
      ∀ s ∈ res, s.kind ∈ structuralTypeKinds) := by
  obtain ⟨navs, hs, hres⟩ := find_symbol_ok_elim a name options res h
  subst hres
  refine ⟨?_, ?_, ?_⟩
  · intro hfil s hmem
    obtain ⟨nav, _, hp⟩ := List.mem_filterMap.mp hmem
    have hk := (processNav_some_spec a options nav s hp).2.1
    rw [hfil] at hk
    simpa [keepFilter] using hk
  · intro hfil s hmem
    obtain ⟨nav, _, hp⟩ := List.mem_filterMap.mp hmem
    have hk := (processNav_some_spec a options nav s hp).2.1
    rw [hfil] at hk
    simpa [keepFilter] using hk
  · intro hhon hfil s hmem
    obtain ⟨nav, hnav, hp⟩ := List.mem_filterMap.mp hmem
    have hq : (mkQuery name options).onlyTypes = true := by
      simp [mkQuery, hfil]
    obtain ⟨k, hkind, hkmem⟩ := hhon (mkQuery name options) navs hq hs nav
      (List.mem_of_mem_take hnav)
    have hconv := (processNav_some_spec a options nav s hp).1
    rw [hkind] at hconv
    simp only [Option.getD_some] at hconv
    simp only [rawStructuralTypeKinds, List.mem_cons, List.mem_singleton,
      List.not_mem_nil, or_false] at hkmem
    rcases hkmem with h' | h' | h' | h' <;> subst h' <;>
      simp only [convert_symbol_kind, Option.some.injEq] at hconv <;>
      rw [← hconv] <;> decide

/-- Witness for C5: a host honouring the only-types contract yields a
structural type kind under `Types`, a function kind under `Functions`
and an implementation kind under `Implementations`. -/
theorem find_symbol_filter_soundness_witness :
    infoS.kind ∈ structuralTypeKinds ∧
    (infoF.kind = SymbolKind.Function ∨ infoF.kind = SymbolKind.Method) ∧
    infoI.kind = SymbolKind.Impl :=
  ⟨(find_symbol_filter_soundness analyzerTypes "S" optsTypes [infoS] rfl).2.2
      (by
        intro q navs hq hsearch nav hmem
        have hn : navs = [navStruct] := by
          simp only [analyzerTypes, hostTypes, hq, if_true,
            Option.some.injEq] at hsearch
          exact hsearch.symm
        subst hn
        simp only [List.mem_singleton] at hmem
        subst hmem
        exact ⟨RaSymbolKind.Struct, rfl, by decide⟩)
      rfl infoS (by decide),
   (find_symbol_filter_soundness analyzerTypes "f" optsFuns [infoF] rfl).1
      rfl infoF (by decide),
   (find_symbol_filter_soundness analyzerTypes "i" optsImpls [infoI] rfl).2.1
      rfl infoI (by decide)⟩

/-- C6: a `find_symbol` request whose mode or filter string is outside
the defined enum values is rejected with a client error (code `-1`),
and the response is independent of the analyzer session — no session
access occurs. -/
theorem server_find_symbol_invalid_enum_rejected (p : FindSymbolParams)
    (h : (parse_mode p.mode).isOk = false ∨ (parse_filter p.filter).isOk = false) :
    ∀ a1 a2 : Analyzer,
      server_find_symbol a1 p = server_find_symbol a2 p ∧
      ∃ e, server_find_symbol a1 p = .error e ∧ e.code = -1 := by
  intro a1 a2
  cases hm : parse_mode p.mode with
  | error e =>
    refine ⟨?_, e, ?_, parse_mode_error_code p.mode e hm⟩
    · simp [server_find_symbol, hm]
    · simp [server_find_symbol, hm]
  | ok mode =>
    cases hf : parse_filter p.filter with
    | error e =>
      refine ⟨?_, e, ?_, parse_filter_error_code p.filter e hf⟩
      · simp [server_find_symbol, hm, hf]
      · simp [server_find_symbol, hm, hf]
    | ok filter =>
      exfalso
      rcases h with h | h
      · rw [hm] at h
        simp [Except.isOk, Except.toBool] at h
      · rw [hf] at h
        simp [Except.isOk, Except.toBool] at h

/-- Witness for C6: an unknown mode string produces the same (error)
response over two different sessions. -/
theorem server_find_symbol_invalid_enum_rejected_witness :
    (parse_mode paramsBadMode.mode).isOk = false ∧
    server_find_symbol analyzer0 paramsBadMode =
      server_find_symbol analyzerTypes paramsBadMode :=
  ⟨by decide,
   (server_find_symbol_invalid_enum_rejected paramsBadMode
      (Or.inl (by decide)) analyzer0 analyzerTypes).1⟩

/-- C7 counterexample: `filter=Types` issues a different, type-restricted
engine query, and both calls are truncated at 32 results; a struct
ranked after 32 functions appears under `Types` but not under `All`, so
the `All` result is not a superset of the `Types` result. -/
theorem find_symbol_all_superset_counterexample :
    find_symbol analyzerTrunc "f" optsTypes = .ok [infoS] ∧
    find_symbol analyzerTrunc "f" optsAll = .ok (List.replicate 32 infoF) ∧
    infoS ∈ [infoS] ∧ infoS ∉ List.replicate 32 infoF :=
  ⟨rfl, rfl, by decide, by decide⟩

/-- C7 amended: for the post-hoc filters (`Implementations` and
`Functions`), which share the `All` engine query, the `All` result is a
superset by membership of the filtered result for the same name, mode
and library scope; the `Types` filter is excluded since it changes the
engine query (see the counterexample). -/
theorem find_symbol_all_superset_of_posthoc_filters (a : Analyzer)
    (name : String) (mode : SearchMode) (lib : Bool) (fil : SymbolFilter)
    (hfil : fil = SymbolFilter.Implementations ∨ fil = SymbolFilter.Functions)
    (resAll resF : List SymbolInfo)
    (hAll : find_symbol a name ⟨mode, lib, SymbolFilter.All⟩ = .ok resAll)
    (hF : find_symbol a name ⟨mode, lib, fil⟩ = .ok resF) :
    ∀ s ∈ resF, s ∈ resAll := by
  obtain ⟨navsA, hsA, hresA⟩ := find_symbol_ok_elim _ _ _ _ hAll
  obtain ⟨navsF, hsF, hresF⟩ := find_symbol_ok_elim _ _ _ _ hF
  have hq : mkQuery name ⟨mode, lib, fil⟩ =
      mkQuery name ⟨mode, lib, SymbolFilter.All⟩ := by
    rcases hfil with h' | h' <;> subst h' <;> rfl
  rw [hq, hsA] at hsF
  injection hsF with hnavs
  subst hnavs
  subst hresA
  subst hresF
  intro s hmem
  obtain ⟨nav, hnav, hp⟩ := List.mem_filterMap.mp hmem
  exact List.mem_filterMap.mpr
    ⟨nav, hnav, processNav_all_of_filter a mode lib fil nav s hp⟩

/-- Witness for C7's amended claim: a `Functions` result entry is a
member of the `All` result for the same query. -/
theorem find_symbol_all_superset_of_posthoc_filters_witness :
    infoF ∈ [infoS, infoF, infoI] :=
  find_symbol_all_superset_of_posthoc_filters analyzerTypes "f"
    SearchMode.Fuzzy false SymbolFilter.Functions (Or.inr rfl)
    [infoS, infoF, infoI] [infoF] rfl rfl infoF (by decide)

/-- C8: per-entry failures never fail the whole `find_symbol` call:
when the engine search answers, the call succeeds; and for every entry
produced, an unresolvable path falls back to the debug-formatted file
identifier, unavailable file text falls back to lines `(0, 0)`, and
whether the entry is returned at all is independent of the session's
path table and text store. -/
theorem find_symbol_per_entry_fallbacks (a : Analyzer) (name : String)
    (options : SearchOptions) (navs : List NavItem)
    (hs : a.host.search (mkQuery name options) = some navs) :
    find_symbol a name options =
      .ok ((navs.take 32).filterMap (processNav a options)) ∧
    ∀ nav s, processNav a options nav = some s →
      (a.vfs.file_path nav.file_id = none →
        s.file_path = debugFormatFileId nav.file_id) ∧
      (a.host.file_text nav.file_id = none →
        s.start_line = 0 ∧ s.end_line = 0) ∧
      ∀ a2 : Analyzer, (processNav a2 options nav).isSome = true := by
  constructor
  · simp [find_symbol, symbol_search, hs]
  · intro nav s hp
    have spec := processNav_some_spec a options nav s hp
    refine ⟨spec.2.2.1, spec.2.2.2, fun a2 => ?_⟩
    rw [← processNav_isSome_congr a a2 options nav, hp]
    rfl

/-- Witness for C8: over an empty path table and unavailable text the
entry is still produced, with the debug-formatted path and `(0, 0)`
lines, and the call succeeds. -/
theorem find_symbol_per_entry_fallbacks_witness :
    find_symbol analyzerTypes "f" optsFuns = .ok [infoF] ∧
    infoF.file_path = debugFormatFileId 0 ∧
    infoF.start_line = 0 ∧ infoF.end_line = 0 := by
  have T := find_symbol_per_entry_fallbacks analyzerTypes "f" optsFuns
    [navStruct, navFun, navImpl] rfl
  exact ⟨T.1, (T.2 navFun infoF rfl).1 rfl, ((T.2 navFun infoF rfl).2.1 rfl).1,
    ((T.2 navFun infoF rfl).2.1 rfl).2⟩
